import Mathlib

/-!
Verification of the MediaPipe pose-detection adapter script
(`python_modules/mediapipe_pose-dectection.py`).

The script is integration glue: it validates an incoming frame, converts the
color space through OpenCV, delegates to the external MediaPipe estimator,
and reshapes the result into a fixed JSON schema plus a status string.

The embedding below follows the source line by line.  External collaborators
(OpenCV color conversion, the MediaPipe estimator) are modelled as abstract
functions that either return a value or raise a Python exception; the adapter
code itself is translated faithfully, including which exception class the
`try/except cv2.error` block catches.  Numeric landmark fields are carried as
exact rationals: the adapter copies them verbatim and performs no arithmetic
on them, so the choice of number representation is inert.
-/

namespace MediaPipePose

/-- A NumPy ndarray, abstracted to the attributes the script inspects:
its shape (whence `size`, the product of the dimensions) and its dtype.
The pixel payload is irrelevant to the adapter and is left abstract. -/
structure NDArray where
  shape : List Nat
  dtype : String
deriving DecidableEq

/-- `video_frame.size` in NumPy: the product of the dimensions. -/
def NDArray.size (a : NDArray) : Nat := a.shape.prod

/-- The value handed to `python_main`: either a NumPy ndarray or any other
Python value (`isinstance(video_frame, np.ndarray)` is false for the latter). -/
inductive PyInput where
  | arr (a : NDArray)
  | notArray
deriving DecidableEq

/-- Python exception classes relevant to the script.  The `try` block in
`python_main` catches only `cv2.error`; every other class propagates. -/
inductive PyExc where
  | cvError (msg : String)
  | keyError (key : Nat)
  | attributeError (msg : String)
  | otherError (msg : String)
deriving DecidableEq

/-- One landmark reported by the estimator: normalized coordinates and a
visibility confidence, copied verbatim by the adapter. -/
structure Landmark where
  x : ℚ
  y : ℚ
  z : ℚ
  visibility : ℚ
deriving DecidableEq

/-- `results.pose_landmarks.landmark`: the sequence of reported landmarks. -/
structure LandmarkList where
  landmark : List Landmark
deriving DecidableEq

/-- The object returned by `pose.process`: `pose_landmarks` is `None` when no
person is detected, otherwise a landmark list. -/
structure MPResults where
  pose_landmarks : Option LandmarkList
deriving DecidableEq

/-- The JSON value tree handed to `json.dumps`: the script builds Python
dicts and lists of strings and numbers; `json.dumps` serializes exactly this
tree, so claims about the emitted JSON are stated on the tree. -/
inductive Json where
  | str (s : String)
  | int (n : Int)
  | num (q : ℚ)
  | arr (elems : List Json)
  | obj (fields : List (String × Json))

/-- The external MediaPipe `Pose` instance: `process` runs inference on a
frame (may raise), `close` releases the native resource (may raise). -/
structure Estimator where
  process : NDArray → Except PyExc MPResults
  close : Except PyExc Unit

/-- The external OpenCV layer: `cvtColor` converts BGR to RGB and raises
`cv2.error` on buffers it cannot handle. -/
structure Env where
  cvtColor : NDArray → Except PyExc NDArray

/-- The static id-to-name dictionary `POSE_LANDMARKS` from the script,
entry for entry. -/
def POSE_LANDMARKS : List (Nat × String) :=
  [(0, "Nose"), (1, "Left Eye (Inner)"), (2, "Left Eye"), (3, "Left Eye (Outer)"),
   (4, "Right Eye (Inner)"), (5, "Right Eye"), (6, "Right Eye (Outer)"),
   (7, "Left Ear"), (8, "Right Ear"), (9, "Mouth (Left)"), (10, "Mouth (Right)"),
   (11, "Left Shoulder"), (12, "Right Shoulder"), (13, "Left Elbow"), (14, "Right Elbow"),
   (15, "Left Wrist"), (16, "Right Wrist"), (17, "Left Pinky"), (18, "Right Pinky"),
   (19, "Left Index Finger"), (20, "Right Index Finger"), (21, "Left Thumb"), (22, "Right Thumb"),
   (23, "Left Hip"), (24, "Right Hip"), (25, "Left Knee"), (26, "Right Knee"),
   (27, "Left Ankle"), (28, "Right Ankle"), (29, "Left Heel"), (30, "Right Heel"),
   (31, "Left Foot Index"), (32, "Right Foot Index")]

/-- Dictionary lookup `POSE_LANDMARKS[idx]`; `none` models a `KeyError`. -/
def lookupPoseName (idx : Nat) : Option String := POSE_LANDMARKS.lookup idx

/-- The dict appended for one landmark in the mapping loop. -/
def entryJson (idx : Nat) (nm : String) (l : Landmark) : Json :=
  .obj [("id", .int idx), ("name", .str nm), ("x", .num l.x), ("y", .num l.y),
        ("z", .num l.z), ("visibility", .num l.visibility)]

/-- The `for idx, landmark in enumerate(...)` loop of `python_main`, started
at index `idx`: appends one dict per landmark, raising `KeyError` at the
first index missing from `POSE_LANDMARKS`. -/
def buildLandmarks (idx : Nat) : List Landmark → Except PyExc (List Json)
  | [] => .ok []
  | l :: rest =>
      match lookupPoseName idx with
      | none => .error (.keyError idx)
      | some nm => (buildLandmarks (idx + 1) rest).map (fun tail => entryJson idx nm l :: tail)

/-- The body of the `try` block: `cv2.cvtColor` then `pose.process`.  When the
global `pose` is still `None`, attribute access on `None` raises an
`AttributeError` (which is not a `cv2.error`). -/
def tryBlock (env : Env) (pose : Option Estimator) (a : NDArray) : Except PyExc MPResults :=
  match env.cvtColor a with
  | .error e => .error e
  | .ok rgb =>
      match pose with
      | none => .error (.attributeError "NoneType object has no attribute process")
      | some p => p.process rgb

/-- The return value of the invalid-input branch of `python_main`. -/
def invalidResult : Json × String :=
  (.obj [("error", .str "Invalid input: Expected a non-empty NumPy image array")],
   "Invalid or empty frame received")

/-- `python_main` after the input validation passed: runs the `try` block,
catches exactly `cv2.error`, then maps the landmarks. -/
def afterValidation (env : Env) (pose : Option Estimator) (a : NDArray) :
    Except PyExc (Json × String) :=
  match tryBlock env pose a with
  | .error (.cvError m) =>
      .ok (.obj [("error", .str ("OpenCV error: " ++ m))], "OpenCV processing error")
  | .error e => .error e
  | .ok results =>
      match results.pose_landmarks with
      | some lms =>
          match buildLandmarks 0 lms.landmark with
          | .ok entries => .ok (.obj [("pose", .arr entries)], "Pose detected successfully")
          | .error e => .error e
      | none => .ok (.obj [("pose", .arr [])], "No pose detected")

/-- `python_main(video_frame)`: validation, conversion, estimation, mapping.
The result is `Except.ok` of the returned pair (JSON tree, status string),
or `Except.error` when an uncaught Python exception propagates. -/
def python_main (env : Env) (pose : Option Estimator) (frame : PyInput) :
    Except PyExc (Json × String) :=
  match frame with
  | .notArray => .ok invalidResult
  | .arr a => if a.size = 0 then .ok invalidResult else afterValidation env pose a

/-- `python_finalize()`: `if pose: pose.close(); pose = None`.  Returns the
new value of the global `pose` together with a flag recording whether
`close` was called; an exception raised by `close` propagates. -/
def python_finalize : Option Estimator → Except PyExc (Option Estimator × Bool)
  | some p =>
      match p.close with
      | .ok _ => .ok (none, true)
      | .error e => .error e
  | none => .ok (none, false)

/-- `python_init(video_frame)`: allocates the estimator singleton; the frame
argument is unused.  The allocation itself is external (MediaPipe). -/
def python_init (mk : Estimator) (_pose : Option Estimator) : Option Estimator := some mk

/-- The four status strings `python_main` can return. -/
def statusStrings : List String :=
  ["Invalid or empty frame received", "OpenCV processing error",
   "Pose detected successfully", "No pose detected"]

/-- Every string literal occurring in a JSON tree (keys and string values). -/
def Json.strings : Json → List String
  | .str s => [s]
  | .int _ => []
  | .num _ => []
  | .arr [] => []
  | .arr (j :: rest) => j.strings ++ (Json.arr rest).strings
  | .obj [] => []
  | .obj ((k, v) :: rest) => k :: (v.strings ++ (Json.obj rest).strings)

/-! ### Helper lemmas about the name table -/

theorem lookup_mem {i : Nat} {nm : String} :
    ∀ {l : List (Nat × String)}, l.lookup i = some nm → (i, nm) ∈ l := by
  intro l
  induction l with
  | nil => intro h; simp [List.lookup] at h
  | cons p rest ih =>
    intro h
    obtain ⟨k, v⟩ := p
    simp only [List.lookup] at h
    split at h
    · next hik =>
        obtain rfl : i = k := by simpa using hik
        obtain rfl : v = nm := by injection h
        exact List.mem_cons_self _ _
    · next hik => exact List.mem_cons_of_mem _ (ih h)

theorem poseKeys_lt {p : Nat × String} (hp : p ∈ POSE_LANDMARKS) : p.1 < 33 := by
  have h : ∀ q ∈ POSE_LANDMARKS, q.1 < 33 := by decide
  exact h p hp

theorem lookupPoseName_isSome_of_lt {i : Nat} (h : i < 33) : (lookupPoseName i).isSome := by
  revert h
  revert i
  decide

theorem lookupPoseName_none_of_ge {i : Nat} (h : 33 ≤ i) : lookupPoseName i = none := by
  cases hl : lookupPoseName i with
  | none => rfl
  | some nm =>
      simp only [lookupPoseName] at hl
      have := poseKeys_lt (lookup_mem hl)
      omega

/-! ### Concrete fixtures used by the witnesses -/

def env0 : Env := ⟨fun a => .ok a⟩

def envCv : Env := ⟨fun _ => .error (.cvError "boom")⟩

def lm0 : Landmark := ⟨1/2, 1/3, -1/4, 9/10⟩

def est33 : Estimator := ⟨fun _ => .ok ⟨some ⟨List.replicate 33 lm0⟩⟩, .ok ()⟩

def est34 : Estimator := ⟨fun _ => .ok ⟨some ⟨List.replicate 34 lm0⟩⟩, .ok ()⟩

def estNone : Estimator := ⟨fun _ => .ok ⟨none⟩, .ok ()⟩

def a0 : NDArray := ⟨[2, 2, 3], "uint8"⟩

def a1 : NDArray := ⟨[5], "float64"⟩

/-! ### Claim theorems -/

/-- Claim C2: for every input that is not a non-empty ndarray, `python_main`
returns the error object with message starting "Invalid input" and status
"Invalid or empty frame received"; the result is the same for every
conversion layer and every estimator state, so the estimator is never
consulted. -/
theorem main_invalid_input (env : Env) (pose : Option Estimator) (frame : PyInput)
    (h : frame = .notArray ∨ ∃ a, frame = .arr a ∧ a.size = 0) :
    python_main env pose frame =
      .ok (Json.obj [("error", Json.str "Invalid input: Expected a non-empty NumPy image array")],
           "Invalid or empty frame received") ∧
    ∀ (env2 : Env) (pose2 : Option Estimator),
      python_main env2 pose2 frame = python_main env pose frame := by
  have hval : ∀ (e : Env) (p : Option Estimator), python_main e p frame = .ok invalidResult := by
    intro e p
    rcases h with rfl | ⟨a, rfl, ha⟩
    · rfl
    · simp [python_main, ha]
  exact ⟨hval env pose, fun env2 pose2 => (hval env2 pose2).trans (hval env pose).symm⟩

theorem main_invalid_input_witness :
    python_main env0 none PyInput.notArray =
      .ok (Json.obj [("error", Json.str "Invalid input: Expected a non-empty NumPy image array")],
           "Invalid or empty frame received") :=
  (main_invalid_input env0 none PyInput.notArray (Or.inl rfl)).1

/-- Claim C7: `python_finalize` closes the handle when present and resets the
singleton to `none`; it returns without failure when the handle is absent;
and after any successful call the state is `none`, so a second call succeeds,
closes nothing, and leaves the state unchanged. -/
theorem finalize_idempotent (st : Option Estimator) :
    (st = none → python_finalize st = .ok (none, false)) ∧
    (∀ p, st = some p → p.close = .ok () → python_finalize st = .ok (none, true)) ∧
    (∀ st1 b, python_finalize st = .ok (st1, b) →
        st1 = none ∧ python_finalize st1 = .ok (st1, false)) := by
  refine ⟨?_, ?_, ?_⟩
  · rintro rfl; rfl
  · rintro p rfl hc
    simp [python_finalize, hc]
  · intro st1 b h
    cases st with
    | none =>
        simp only [python_finalize, Except.ok.injEq, Prod.mk.injEq] at h
        obtain ⟨rfl, rfl⟩ := h
        exact ⟨rfl, rfl⟩
    | some p =>
        simp only [python_finalize] at h
        cases hc : p.close with
        | ok u =>
            rw [hc] at h
            simp at h
            obtain ⟨rfl, rfl⟩ := h
            exact ⟨rfl, rfl⟩
        | error e =>
            rw [hc] at h
            simp at h

theorem finalize_idempotent_witness :
    python_finalize (some est33) = .ok (none, true) :=
  (finalize_idempotent (some est33)).2.1 est33 rfl rfl

/-- Claim C8: the static name table covers every id from 0 to 32, and no two
ids map to the same name. -/
theorem table_total_and_names_nodup :
    (∀ i, i < 33 → (lookupPoseName i).isSome) ∧ (POSE_LANDMARKS.map Prod.snd).Nodup := by
  constructor
  · decide
  · decide

theorem table_total_and_names_nodup_witness :
    (lookupPoseName 0).isSome :=
  table_total_and_names_nodup.1 0 (by decide)

/-! ### The mapping loop -/

theorem buildLandmarks_ok :
    ∀ (lms : List Landmark) (idx : Nat), idx + lms.length ≤ 33 →
      ∃ entries : List Json, buildLandmarks idx lms = .ok entries ∧
        entries.length = lms.length ∧
        ∀ i : Nat, i < lms.length →
          ∃ nm lm, lms[i]? = some lm ∧ lookupPoseName (idx + i) = some nm ∧
            entries[i]? = some (entryJson (idx + i) nm lm) := by
  intro lms
  induction lms with
  | nil =>
      intro idx _
      exact ⟨[], rfl, rfl, fun i hi => absurd hi (by simp)⟩
  | cons l rest ih =>
      intro idx hle
      have hidx : idx < 33 := by simp [List.length_cons] at hle; omega
      obtain ⟨nm, hnm⟩ := Option.isSome_iff_exists.mp (lookupPoseName_isSome_of_lt hidx)
      obtain ⟨entries, hok, hlen, hget⟩ :=
        ih (idx + 1) (by simp [List.length_cons] at hle ⊢; omega)
      refine ⟨entryJson idx nm l :: entries, ?_, ?_, ?_⟩
      · simp [buildLandmarks, hnm, hok, Except.map]
      · simp [hlen]
      · intro i hi
        cases i with
        | zero => exact ⟨nm, l, by simp, by simpa using hnm, by simp⟩
        | succ j =>
            have hj : j < rest.length := by simp at hi; omega
            obtain ⟨nm2, lm2, h1, h2, h3⟩ := hget j hj
            have hadd : idx + (j + 1) = idx + 1 + j := by omega
            refine ⟨nm2, lm2, by simpa using h1, ?_, ?_⟩
            · rw [hadd]; exact h2
            · rw [hadd]; simpa using h3

theorem buildLandmarks_keyError :
    ∀ (lms : List Landmark) (idx : Nat), idx ≤ 33 → 33 < idx + lms.length →
      buildLandmarks idx lms = .error (.keyError 33) := by
  intro lms
  induction lms with
  | nil =>
      intro idx h1 h2
      simp [List.length_nil] at h2
      omega
  | cons l rest ih =>
      intro idx h1 h2
      by_cases h33 : idx = 33
      · subst h33
        simp [buildLandmarks, lookupPoseName_none_of_ge (Nat.le_refl 33)]
      · have hlt : idx < 33 := by omega
        obtain ⟨nm, hnm⟩ := Option.isSome_iff_exists.mp (lookupPoseName_isSome_of_lt hlt)
        have hrec := ih (idx + 1) (by omega) (by simp [List.length_cons] at h2 ⊢; omega)
        simp [buildLandmarks, hnm, hrec, Except.map]

/-- Claim C1: when the estimator reports a 33-landmark sequence, `python_main`
returns the object with key "pose" holding exactly 33 entries, the entry at
index `i` carrying id `i` and the name that the static table assigns to `i`,
with status "Pose detected successfully". -/
theorem main_pose_detected_33 (env : Env) (est : Estimator) (a rgb : NDArray)
    (lms : List Landmark)
    (hsize : a.size ≠ 0)
    (hcv : env.cvtColor a = .ok rgb)
    (hproc : est.process rgb = .ok ⟨some ⟨lms⟩⟩)
    (hlen : lms.length = 33) :
    ∃ entries : List Json,
      python_main env (some est) (.arr a) =
        .ok (Json.obj [("pose", Json.arr entries)], "Pose detected successfully") ∧
      entries.length = 33 ∧
      ∀ i : Nat, i < 33 →
        ∃ nm lm, lookupPoseName i = some nm ∧
          entries[i]? = some (entryJson i nm lm) := by
  obtain ⟨entries, hok, hlen2, hget⟩ := buildLandmarks_ok lms 0 (by omega)
  refine ⟨entries, ?_, by omega, ?_⟩
  · simp [python_main, afterValidation, tryBlock, hsize, hcv, hproc, hok]
  · intro i hi
    obtain ⟨nm, lm, _, h2, h3⟩ := hget i (by omega)
    exact ⟨nm, lm, by simpa using h2, by simpa using h3⟩

theorem main_pose_detected_33_witness :
    ∃ entries : List Json,
      python_main env0 (some est33) (.arr a0) =
        .ok (Json.obj [("pose", Json.arr entries)], "Pose detected successfully") ∧
      entries.length = 33 ∧
      ∀ i : Nat, i < 33 →
        ∃ nm lm, lookupPoseName i = some nm ∧
          entries[i]? = some (entryJson i nm lm) :=
  main_pose_detected_33 env0 est33 a0 a0 (List.replicate 33 lm0)
    (by decide) rfl rfl (by simp)

/-- Claim C5: when the estimator result carries no landmark list
(`pose_landmarks` is `None`), `python_main` returns the object with key
"pose" holding the empty array and status "No pose detected". -/
theorem main_no_pose_detected (env : Env) (est : Estimator) (a rgb : NDArray)
    (hsize : a.size ≠ 0)
    (hcv : env.cvtColor a = .ok rgb)
    (hproc : est.process rgb = .ok ⟨none⟩) :
    python_main env (some est) (.arr a) =
      .ok (Json.obj [("pose", Json.arr [])], "No pose detected") := by
  simp [python_main, afterValidation, tryBlock, hsize, hcv, hproc]

theorem main_no_pose_detected_witness :
    python_main env0 (some estNone) (.arr a0) =
      .ok (Json.obj [("pose", Json.arr [])], "No pose detected") :=
  main_no_pose_detected env0 estNone a0 a0 (by decide) rfl rfl

/-- Claim C6: in a successful result, every landmark entry carries the x, y,
z and visibility values reported by the estimator at the same index,
copied verbatim into the JSON object. -/
theorem main_copies_fields_verbatim (env : Env) (est : Estimator) (a rgb : NDArray)
    (lms : List Landmark)
    (hsize : a.size ≠ 0)
    (hcv : env.cvtColor a = .ok rgb)
    (hproc : est.process rgb = .ok ⟨some ⟨lms⟩⟩)
    (hlen : lms.length ≤ 33) :
    ∃ entries : List Json,
      python_main env (some est) (.arr a) =
        .ok (Json.obj [("pose", Json.arr entries)], "Pose detected successfully") ∧
      ∀ i : Nat, ∀ lm : Landmark, lms[i]? = some lm →
        ∃ nm, entries[i]? = some (Json.obj
          [("id", Json.int i), ("name", Json.str nm), ("x", Json.num lm.x),
           ("y", Json.num lm.y), ("z", Json.num lm.z),
           ("visibility", Json.num lm.visibility)]) := by
  obtain ⟨entries, hok, hlen2, hget⟩ := buildLandmarks_ok lms 0 (by omega)
  refine ⟨entries, ?_, ?_⟩
  · simp [python_main, afterValidation, tryBlock, hsize, hcv, hproc, hok]
  · intro i lm hlm
    have hi : i < lms.length := by
      by_contra hge
      rw [List.getElem?_eq_none (by omega)] at hlm
      exact Option.noConfusion hlm
    obtain ⟨nm, lm2, h1, _, h3⟩ := hget i hi
    obtain rfl : lm = lm2 := by
      rw [hlm] at h1
      exact Option.some.inj h1.symm ▸ rfl
    exact ⟨nm, by simpa [entryJson] using h3⟩

theorem main_copies_fields_verbatim_witness :
    ∃ entries : List Json,
      python_main env0 (some est33) (.arr a0) =
        .ok (Json.obj [("pose", Json.arr entries)], "Pose detected successfully") ∧
      ∀ i : Nat, ∀ lm : Landmark, (List.replicate 33 lm0)[i]? = some lm →
        ∃ nm, entries[i]? = some (Json.obj
          [("id", Json.int i), ("name", Json.str nm), ("x", Json.num lm.x),
           ("y", Json.num lm.y), ("z", Json.num lm.z),
           ("visibility", Json.num lm.visibility)]) :=
  main_copies_fields_verbatim env0 est33 a0 a0 (List.replicate 33 lm0)
    (by decide) rfl rfl (by simp)

/-- Claim C9: the validation accepts every non-empty ndarray whatever its
shape or dtype, so a non-empty 1-D array reaches the color conversion, and a
`cv2.error` raised there is reported with status "OpenCV processing error"
rather than "Invalid or empty frame received". -/
theorem main_accepts_any_nonempty_ndarray :
    (∀ (env : Env) (pose : Option Estimator) (a : NDArray), a.size ≠ 0 →
        python_main env pose (.arr a) = afterValidation env pose a) ∧
    (∀ (env : Env) (pose : Option Estimator) (n : Nat) (d m : String), n ≠ 0 →
        env.cvtColor ⟨[n], d⟩ = .error (.cvError m) →
        python_main env pose (.arr ⟨[n], d⟩) =
          .ok (Json.obj [("error", Json.str ("OpenCV error: " ++ m))],
               "OpenCV processing error")) := by
  constructor
  · intro env pose a ha
    simp [python_main, ha]
  · intro env pose n d m hn hcv
    have hsz : NDArray.size ⟨[n], d⟩ ≠ 0 := by simp [NDArray.size, hn]
    simp [python_main, afterValidation, tryBlock, hsz, hcv]

theorem main_accepts_any_nonempty_ndarray_witness :
    python_main envCv none (.arr a1) =
      .ok (Json.obj [("error", Json.str ("OpenCV error: " ++ "boom"))],
           "OpenCV processing error") :=
  main_accepts_any_nonempty_ndarray.2 envCv none 5 "float64" "boom" (by decide) rfl

/-- Claim C10: the mapping loop succeeds exactly for estimator sequences of
at most 33 landmarks; index 33 is absent from the table, a 34th landmark
makes the lookup raise `KeyError 33`, and that exception propagates out of
`python_main` uncaught. -/
theorem mapping_total_iff_at_most_33 :
    lookupPoseName 33 = none ∧
    (∀ lms : List Landmark, lms.length ≤ 33 →
        ∃ entries, buildLandmarks 0 lms = .ok entries) ∧
    (∀ lms : List Landmark, 33 < lms.length →
        buildLandmarks 0 lms = .error (.keyError 33)) ∧
    (∀ (env : Env) (est : Estimator) (a rgb : NDArray) (lms : List Landmark),
        a.size ≠ 0 → env.cvtColor a = .ok rgb →
        est.process rgb = .ok ⟨some ⟨lms⟩⟩ → 33 < lms.length →
        python_main env (some est) (.arr a) = .error (.keyError 33)) := by
  refine ⟨by decide, ?_, ?_, ?_⟩
  · intro lms hle
    obtain ⟨entries, hok, -, -⟩ := buildLandmarks_ok lms 0 (by omega)
    exact ⟨entries, hok⟩
  · intro lms hgt
    exact buildLandmarks_keyError lms 0 (by omega) (by omega)
  · intro env est a rgb lms hsize hcv hproc hgt
    have hbuild := buildLandmarks_keyError lms 0 (by omega) (by omega)
    simp [python_main, afterValidation, tryBlock, hsize, hcv, hproc, hbuild]

theorem mapping_total_iff_at_most_33_witness :
    python_main env0 (some est34) (.arr a0) = .error (.keyError 33) :=
  mapping_total_iff_at_most_33.2.2.2 env0 est34 a0 a0 (List.replicate 34 lm0)
    (by decide) rfl rfl (by simp)

/-- Claim C3: a `cv2.error` raised inside the try block is caught and
reported as the OpenCV error pair; an exception of any other class raised
after validation propagates out of `python_main`, and in particular calling
`python_main` with the singleton still `None` propagates the
`AttributeError` raised by attribute access on `None`. -/
theorem main_catches_exactly_cv_error (env : Env) (pose : Option Estimator) (a : NDArray)
    (hsize : a.size ≠ 0) :
    (∀ m, tryBlock env pose a = .error (.cvError m) →
        python_main env pose (.arr a) =
          .ok (Json.obj [("error", Json.str ("OpenCV error: " ++ m))],
               "OpenCV processing error")) ∧
    (∀ e, tryBlock env pose a = .error e → (∀ m, e ≠ .cvError m) →
        python_main env pose (.arr a) = .error e) ∧
    (pose = none → ∀ rgb, env.cvtColor a = .ok rgb →
        python_main env pose (.arr a) =
          .error (.attributeError "NoneType object has no attribute process")) := by
  refine ⟨?_, ?_, ?_⟩
  · intro m htb
    simp [python_main, afterValidation, hsize, htb]
  · intro e htb hne
    cases e with
    | cvError m => exact absurd rfl (hne m)
    | keyError k => simp [python_main, afterValidation, hsize, htb]
    | attributeError ms => simp [python_main, afterValidation, hsize, htb]
    | otherError ms => simp [python_main, afterValidation, hsize, htb]
  · rintro rfl rgb hcv
    simp [python_main, afterValidation, tryBlock, hsize, hcv]

theorem main_catches_exactly_cv_error_witness :
    python_main envCv none (.arr a0) =
      .ok (Json.obj [("error", Json.str ("OpenCV error: " ++ "boom"))],
           "OpenCV processing error") :=
  (main_catches_exactly_cv_error envCv none a0 (by decide)).1 "boom" rfl

/-! ### Strings occurring in the emitted JSON -/

theorem entryJson_strings (idx : Nat) (nm : String) (l : Landmark) :
    (entryJson idx nm l).strings = ["id", "name", nm, "x", "y", "z", "visibility"] := by
  simp [entryJson, Json.strings]

theorem build_strings :
    ∀ (lms : List Landmark) (idx : Nat) (entries : List Json),
      buildLandmarks idx lms = .ok entries →
      ∀ s, s ∈ (Json.arr entries).strings →
        s ∈ ["id", "name", "x", "y", "z", "visibility"] ∨
          ∃ p ∈ POSE_LANDMARKS, s = p.2 := by
  intro lms
  induction lms with
  | nil =>
      intro idx entries h s hs
      obtain rfl : entries = ([] : List Json) := by
        simpa [buildLandmarks] using h.symm
      simp [Json.strings] at hs
  | cons l rest ih =>
      intro idx entries h s hs
      simp only [buildLandmarks] at h
      cases hnm : lookupPoseName idx with
      | none => rw [hnm] at h; simp at h
      | some nm =>
          rw [hnm] at h
          cases hrec : buildLandmarks (idx + 1) rest with
          | error e => rw [hrec] at h; simp [Except.map] at h
          | ok entries2 =>
              rw [hrec] at h
              simp only [Except.map, Except.ok.injEq] at h
              subst h
              have hs2 : s ∈ (entryJson idx nm l).strings ∨
                  s ∈ (Json.arr entries2).strings := by
                have hx : s ∈ (entryJson idx nm l).strings ++ (Json.arr entries2).strings := by
                  simpa only [Json.strings] using hs
                exact List.mem_append.mp hx
              rcases hs2 with h1 | h2
              · rw [entryJson_strings] at h1
                simp only [List.mem_cons, List.not_mem_nil, or_false] at h1
                rcases h1 with h1 | h1 | h1 | h1 | h1 | h1 | h1
                · left; simp [h1]
                · left; simp [h1]
                · right
                  exact ⟨(idx, nm), lookup_mem (by simpa [lookupPoseName] using hnm), h1⟩
                · left; simp [h1]
                · left; simp [h1]
                · left; simp [h1]
                · left; simp [h1]
              · exact ih (idx + 1) entries2 hrec s h2

theorem opencv_msg_ne {m s : String}
    (h : s.data.take 14 ≠ ("OpenCV error: " : String).data) :
    ("OpenCV error: " ++ m) ≠ s := by
  intro he
  apply h
  rw [← he, String.data_append]
  have h14 : ("OpenCV error: " : String).data.length = 14 := by decide
  rw [← h14]
  exact List.take_left _ _

theorem pose_names_not_status : ∀ p ∈ POSE_LANDMARKS, p.2 ∉ statusStrings := by decide

theorem not_mem_strings_pair {k m s : String} (h1 : s ≠ k) (h2 : s ≠ m) :
    s ∉ (Json.obj [(k, Json.str m)]).strings := by
  intro hs
  simp only [Json.strings, List.append_nil, List.mem_cons, List.not_mem_nil, or_false] at hs
  rcases hs with hs | hs
  · exact h1 hs
  · exact h2 hs

/-- Claim C4: whenever `python_main` returns, the pair consists of a JSON
object with a single top-level key, "pose" or "error" and never both, and a
status string drawn from the four fixed status messages; the status string
never occurs anywhere inside the JSON tree. -/
theorem main_output_shape (env : Env) (pose : Option Estimator) (frame : PyInput)
    (j : Json) (s : String) (h : python_main env pose frame = .ok (j, s)) :
    s ∈ statusStrings ∧
    ((∃ v, j = Json.obj [("pose", v)]) ∨ (∃ v, j = Json.obj [("error", v)])) ∧
    s ∉ j.strings := by
  have hinv : ((Except.ok invalidResult : Except PyExc (Json × String)) = Except.ok (j, s)) →
      s ∈ statusStrings ∧
      ((∃ v, j = Json.obj [("pose", v)]) ∨ (∃ v, j = Json.obj [("error", v)])) ∧
      s ∉ j.strings := by
    intro hh
    simp only [invalidResult, Except.ok.injEq, Prod.mk.injEq] at hh
    obtain ⟨rfl, rfl⟩ := hh
    exact ⟨by decide, Or.inr ⟨_, rfl⟩, not_mem_strings_pair (by decide) (by decide)⟩
  cases frame with
  | notArray => exact hinv h
  | arr a =>
      have h2 : (if a.size = 0 then (Except.ok invalidResult : Except PyExc (Json × String))
          else afterValidation env pose a) = Except.ok (j, s) := h
      by_cases hsz : a.size = 0
      · rw [if_pos hsz] at h2
        exact hinv h2
      · rw [if_neg hsz] at h2
        cases htb : tryBlock env pose a with
        | error e =>
            cases e with
            | cvError m =>
                simp only [afterValidation, htb, Except.ok.injEq, Prod.mk.injEq] at h2
                obtain ⟨rfl, rfl⟩ := h2
                refine ⟨by decide, Or.inr ⟨_, rfl⟩, ?_⟩
                exact not_mem_strings_pair (by decide)
                  (fun hh => opencv_msg_ne (by decide) hh.symm)
            | keyError k => simp [afterValidation, htb] at h2
            | attributeError ms => simp [afterValidation, htb] at h2
            | otherError ms => simp [afterValidation, htb] at h2
        | ok results =>
            cases hpl : results.pose_landmarks with
            | none =>
                simp only [afterValidation, htb, hpl, Except.ok.injEq, Prod.mk.injEq] at h2
                obtain ⟨rfl, rfl⟩ := h2
                refine ⟨by decide, Or.inl ⟨_, rfl⟩, ?_⟩
                intro hs
                simp [Json.strings] at hs
            | some lms =>
                cases hb : buildLandmarks 0 lms.landmark with
                | error e => simp [afterValidation, htb, hpl, hb] at h2
                | ok entries =>
                    simp only [afterValidation, htb, hpl, hb, Except.ok.injEq,
                      Prod.mk.injEq] at h2
                    obtain ⟨rfl, rfl⟩ := h2
                    refine ⟨by decide, Or.inl ⟨_, rfl⟩, ?_⟩
                    intro hs
                    have hs2 : "Pose detected successfully" = "pose" ∨
                        "Pose detected successfully" ∈ (Json.arr entries).strings := by
                      have hx : "Pose detected successfully" ∈
                          ("pose" :: ((Json.arr entries).strings ++ [])) := by
                        simpa only [Json.strings] using hs
                      simpa using hx
                    rcases hs2 with h1 | h2
                    · exact absurd h1 (by decide)
                    · rcases build_strings lms.landmark 0 entries hb _ h2 with hk | ⟨p, hp, hps⟩
                      · exact absurd hk (by decide)
                      · have hnp := pose_names_not_status p hp
                        rw [← hps] at hnp
                        exact hnp (by decide)

theorem main_output_shape_witness :
    "Invalid or empty frame received" ∈ statusStrings ∧
    ((∃ v, Json.obj [("error",
          Json.str "Invalid input: Expected a non-empty NumPy image array")] =
        Json.obj [("pose", v)]) ∨
      (∃ v, Json.obj [("error",
          Json.str "Invalid input: Expected a non-empty NumPy image array")] =
        Json.obj [("error", v)])) ∧
    "Invalid or empty frame received" ∉
      (Json.obj [("error",
        Json.str "Invalid input: Expected a non-empty NumPy image array")]).strings :=
  main_output_shape env0 none PyInput.notArray
    (Json.obj [("error", Json.str "Invalid input: Expected a non-empty NumPy image array")])
    "Invalid or empty frame received" rfl

end MediaPipePose
